import Mathlib

/-!
Shallow embedding of the AI Impact Scoring Engine of `onet_explorer.py`
(keyword taxonomy, element scorer, task classifier, occupation aggregator,
agent recommender, skill recommender), together with theorems settling the
specification claims about it.

Python floats are modelled by exact rationals (every quantity produced by the
engine is an exact decimal/small fraction, so the modelled comparisons and
roundings agree with the float ones on all inputs considered here), Python
`round` by round-half-to-even, Python `int()` by truncation toward zero, and
dictionary key access by `Option` fields with `Except` for a raised KeyError.
The fragment of Python `re` used by the keyword dictionaries (literals, `\b`,
`\w*`, `.?`, and one alternation group of literals) is given a direct
executable semantics over lists of characters.
-/

set_option maxRecDepth 200000

namespace OnetExplorer

/-- Word character for the `\w` class and `\b` boundaries (ASCII fragment of
Python `re` on lower-cased text). -/
def isWordChar (c : Char) : Bool := c.isAlphanum || c == '_'

/-- Atoms of the regex fragment used by the keyword dictionaries. -/
inductive RAtom where
  | lit (s : List Char)
  | wstar
  | anyOpt
  | wb
  | alts (ss : List (List Char))
deriving DecidableEq, Repr

/-- A keyword pattern is a sequence of regex atoms. -/
abbrev Pattern := List RAtom

/-- Consume a literal from the front of the text, returning the rest. -/
def litConsume : List Char → List Char → Option (List Char)
  | [], rest => some rest
  | _ :: _, [] => none
  | c :: cs, d :: ds => if c = d then litConsume cs ds else none

/-- The character preceding the current position after a literal was
consumed. -/
def lastPrev (s : List Char) (prev : Option Char) : Option Char :=
  match s.getLast? with
  | some c => some c
  | none => prev

/-- `\b`: the position between `prev` and `text` is a word boundary. -/
def atBoundary (prev : Option Char) (text : List Char) : Bool :=
  let pw₀ := match prev with | some c => isWordChar c | none => false
  let nw₀ := match text with | c :: _ => isWordChar c | [] => false
  pw₀ != nw₀

/-- All states reachable by letting `\w*` consume a prefix of word
characters: each element is (new previous character, remaining text). -/
def wordSplits : Option Char → List Char → List (Option Char × List Char)
  | prev, [] => [(prev, [])]
  | prev, c :: cs =>
    (prev, c :: cs) :: (if isWordChar c then wordSplits (some c) cs else [])

/-- Match a pattern at the current position (`prev` is the character just
before it, `none` at the start of the text). -/
def matchAtoms : Pattern → Option Char → List Char → Bool
  | [], _, _ => true
  | .lit s :: ps, prev, text =>
    (match litConsume s text with
     | some rest => matchAtoms ps (lastPrev s prev) rest
     | none => false)
  | .wstar :: ps, prev, text =>
    (wordSplits prev text).any fun st => matchAtoms ps st.1 st.2
  | .anyOpt :: ps, prev, text =>
    matchAtoms ps prev text ||
      (match text with
       | c :: cs => matchAtoms ps (some c) cs
       | [] => false)
  | .wb :: ps, prev, text =>
    atBoundary prev text && matchAtoms ps prev text
  | .alts ss :: ps, prev, text =>
    ss.any fun s =>
      match litConsume s text with
      | some rest => matchAtoms ps (lastPrev s prev) rest
      | none => false

/-- Try to match the pattern at the current position or at any later one. -/
def searchFrom (pat : Pattern) : Option Char → List Char → Bool
  | prev, text =>
    matchAtoms pat prev text ||
      match text with
      | [] => false
      | c :: cs => searchFrom pat (some c) cs

/-- Model of `re.search(pattern, text)` as a Boolean: does the pattern match
anywhere in the text? -/
def reSearch (pat : Pattern) (text : List Char) : Bool := searchFrom pat none text

/-- `\bSTEM\w*`, the most common pattern shape in the dictionaries. -/
def pw (stem : String) : Pattern := [.wb, .lit stem.toList, .wstar]

/-- `\bSTEM` with no trailing `\w*`. -/
def pb (stem : String) : Pattern := [.wb, .lit stem.toList]

/-- One dimension's keyword sets: strong patterns (weight 2.0) and moderate
patterns (weight 1.0). -/
structure KeywordDict where
  strong : List Pattern
  moderate : List Pattern
deriving DecidableEq, Repr

/-- `_EFFICIENCY_KEYWORDS`. -/
def EFFICIENCY_KEYWORDS : KeywordDict where
  strong :=
    (["schedul", "track", "monitor", "record", "compil", "sort"].map pw) ++
    [[.wb, .lit ("data".toList), .anyOpt, .lit ("entry".toList)]] ++
    (["transcri", "calculat", "tabulat", "process", "rout"].map pw) ++
    [[.wb, .lit ("generat".toList), .wstar, .lit (" report".toList)],
     [.wb, .lit ("updat".toList), .wstar, .lit (" ".toList),
      .alts (["record", "database", "system", "file", "log"].map String.toList)]] ++
    (["archiv", "catalog", "index", "format",
      "automat", "repetitiv", "streamlin", "expedi"].map pw)
  moderate :=
    (["analyz", "review", "coordinat", "plan",
      "organiz", "prioritiz", "summariz", "file"].map pw) ++
    [pb "inventory", pw "bookkeep", pb "payroll", pw "invoic",
     [.wb, .lit ("log".toList), .wstar, .wb],
     pw "verif", pw "check"]

/-- `_QUALITY_KEYWORDS`. -/
def QUALITY_KEYWORDS : KeywordDict where
  strong :=
    (["verif", "validat", "inspect", "audit",
      "test", "quality", "accura", "measur",
      "diagnos", "detect", "check"].map pw) ++
    [[.wb, .lit ("compl".toList), .wstar, .lit ("iance".toList)]] ++
    (["standard", "certif", "calibrat", "precis",
      "consisten", "error", "defect"].map pw)
  moderate :=
    ["analyz", "evaluat", "assess", "research",
     "examin", "review", "monitor", "interpret",
     "design", "develop", "model", "forecast",
     "statistic", "optimiz"].map pw

/-- `_COST_KEYWORDS`. -/
def COST_KEYWORDS : KeywordDict where
  strong :=
    (["process", "automat", "rout", "repetitiv",
      "manual", "administrat", "clerical"].map pw) ++
    [[.wb, .lit ("data".toList), .anyOpt, .lit ("entry".toList)]] ++
    (["file", "record", "schedul", "billing", "invoic"].map pw) ++
    [pb "payroll", pb "inventory"] ++
    (["procur", "bookkeep", "budget", "cost"].map pw)
  moderate :=
    ["analyz", "research", "review", "plan",
     "develop", "implement", "coordinat",
     "compil", "track", "monitor", "report",
     "maintain", "updat"].map pw

/-- `_REVENUE_KEYWORDS`. -/
def REVENUE_KEYWORDS : KeywordDict where
  strong :=
    (["develop", "design", "innovat", "creat",
      "market", "product", "strateg", "revenue",
      "growth", "opportunit", "research", "prototyp",
      "experiment", "optimiz", "competitiv"].map pw) ++
    [[.wb, .lit ("customer".toList), .wstar, .lit (" ".toList),
      .alts (["acqui", "retain", "segment", "experience"].map String.toList)],
     pw "sales",
     [.wb, .lit ("business".toList), .wstar, .lit (" develop".toList)]]
  moderate :=
    ["analyz", "plan", "evaluat", "implement",
     "communicat", "present", "forecast",
     "identif", "propos", "recommend",
     "program", "code", "test"].map pw

/-- `_SERVICE_KEYWORDS`. -/
def SERVICE_KEYWORDS : KeywordDict where
  strong :=
    (["customer", "client", "patient", "communicat",
      "respond", "service", "support", "consult",
      "advise", "present", "stakeholder", "relationship",
      "engage", "satisfact", "feedback"].map pw) ++
    [[.wb, .lit ("resolv".toList), .wstar, .lit (" ".toList),
      .alts (["issue", "complaint", "problem", "concern"].map String.toList)]]
  moderate :=
    ["coordinat", "collaborat", "review", "evaluat",
     "report", "deliver", "train", "educa",
     "inform", "notif", "negotiat",
     "mediat", "mentor", "coach"].map pw

/-- `_match_keywords`: count how many keyword patterns match in the
(lower-cased) text. Each pattern contributes at most once. -/
def match_keywords (text : String) (patterns : List Pattern) : ℕ :=
  patterns.countP fun p => reSearch p (text.toList.map Char.toLower)

/-- Python `round(q)`: round to nearest integer, ties to even. -/
def pyRound (q : ℚ) : ℤ :=
  if q - ⌊q⌋ < 1/2 then ⌊q⌋
  else if (1 : ℚ)/2 < q - ⌊q⌋ then ⌊q⌋ + 1
  else if ⌊q⌋ % 2 = 0 then ⌊q⌋ else ⌊q⌋ + 1

/-- Python `round(q, 1)`: round to one decimal place. -/
def pyRound1 (q : ℚ) : ℚ := (pyRound (q * 10) : ℚ) / 10

/-- Python `int(q)`: truncation toward zero. -/
def pyInt (q : ℚ) : ℤ := if q < 0 then ⌈q⌉ else ⌊q⌋

/-- `_score_element`: score a task 0-9 on a single business impact element. -/
def score_element (statement : String) (keyword_dict : KeywordDict) : ℤ :=
  let strong_hits := match_keywords statement keyword_dict.strong
  let moderate_hits := match_keywords statement keyword_dict.moderate
  let raw : ℚ := (strong_hits : ℚ) * 2 + (moderate_hits : ℚ) * 1
  min 9 (max 0 (pyRound raw))

/-- The task classification labels. -/
inductive Classification where
  | automate
  | augment
  | human
deriving DecidableEq, Repr

/-- Result record of `score_task_elements`. -/
structure TaskScores where
  efficiency : ℤ
  quality : ℤ
  cost : ℤ
  revenue : ℤ
  service : ℤ
  avg_score : ℚ
  classification : Classification
deriving DecidableEq, Repr

/-- The classification branch of `score_task_elements` (lines 750-755),
as a function of the average. -/
def classify_avg (avg : ℚ) : Classification :=
  if avg ≥ 5 then Classification.automate
  else if avg ≥ 5/2 then Classification.augment
  else Classification.human

/-- `score_task_elements`: score a single task on the five elements and
derive the average and classification. -/
def score_task_elements (statement : String) : TaskScores :=
  let efficiency := score_element statement EFFICIENCY_KEYWORDS
  let quality := score_element statement QUALITY_KEYWORDS
  let cost := score_element statement COST_KEYWORDS
  let revenue := score_element statement REVENUE_KEYWORDS
  let service := score_element statement SERVICE_KEYWORDS
  let avg : ℚ := ((efficiency : ℚ) + quality + cost + revenue + service) / 5
  { efficiency := efficiency, quality := quality, cost := cost,
    revenue := revenue, service := service,
    avg_score := pyRound1 avg,
    classification := classify_avg avg }

/-- One entry of `_AI_AGENT_CATALOG`. -/
structure Agent where
  name : String
  icon : String
  desc : String
  business_value : String
  triggers : List String
deriving DecidableEq, Repr

/-- `_AI_AGENT_CATALOG` (descriptions and business-value strings elided to
their names' identity is irrelevant to the engine logic; the trigger lists
are transcribed verbatim). -/
def AI_AGENT_CATALOG : List Agent :=
  [{ name := "Data Analytics Agent", icon := "chart-bar",
     desc := "Automates data collection, statistical analysis, trend identification, and dashboard generation from structured and unstructured data sources.",
     business_value := "Reduces analysis cycle time by 60-80%, enabling faster decision-making and freeing analysts for strategic interpretation.",
     triggers := ["analyz", "data", "statistic", "report", "trend", "forecast", "metric", "dashboard"] },
   { name := "Document Processing Agent", icon := "file-text",
     desc := "Extracts, classifies, summarizes, and routes documents. Handles forms, contracts, invoices, and compliance paperwork with high accuracy.",
     business_value := "Eliminates 70-90% of manual document handling, cutting processing costs and reducing error rates below 2%.",
     triggers := ["document", "record", "file", "form", "report", "compil", "review document", "paperwork", "contract", "invoice"] },
   { name := "Research & Intelligence Agent", icon := "search",
     desc := "Conducts multi-source research, synthesizes findings, monitors competitive landscapes, and generates briefing documents with citations.",
     business_value := "Compresses weeks of research into hours, surfacing relevant insights from thousands of sources simultaneously.",
     triggers := ["research", "investigat", "literature", "review", "survey", "study", "evaluat", "assess", "information gathering"] },
   { name := "Content Generation Agent", icon := "pen-tool",
     desc := "Drafts communications, technical writing, marketing copy, reports, and presentations aligned to brand voice and audience requirements.",
     business_value := "Produces first drafts 10x faster, allowing professionals to focus on refinement, strategy, and stakeholder alignment.",
     triggers := ["writ", "draft", "communicat", "corresponden", "present", "content", "report", "memo", "proposal"] },
   { name := "Code & Technical Assistant Agent", icon := "terminal",
     desc := "Generates, reviews, debugs, and documents code. Assists with architecture decisions, testing strategies, and technical documentation.",
     business_value := "Accelerates development velocity by 30-50%, reduces bug density, and automates routine code maintenance tasks.",
     triggers := ["code", "program", "software", "develop", "debug", "test", "system", "technical", "engineer", "algorithm"] },
   { name := "Scheduling & Workflow Agent", icon := "calendar",
     desc := "Manages calendars, coordinates meetings, automates approval workflows, tracks deadlines, and optimizes resource allocation across teams.",
     business_value := "Recovers 5-10 hours per week per professional in coordination overhead, eliminating scheduling conflicts.",
     triggers := ["schedul", "coordinat", "calendar", "meeting", "workflow", "deadline", "assign", "prioritiz", "allocat"] },
   { name := "Customer Interaction Agent", icon := "message-circle",
     desc := "Handles customer inquiries, triages support requests, provides personalized responses, and escalates complex issues to human specialists.",
     business_value := "Resolves 40-60% of routine inquiries autonomously, improving response times from hours to seconds.",
     triggers := ["customer", "client", "patient", "consult", "service", "support", "inquir", "respond", "assist"] },
   { name := "Financial Analysis Agent", icon := "dollar-sign",
     desc := "Performs budget analysis, financial modeling, variance reporting, invoice processing, and regulatory compliance checking for financial operations.",
     business_value := "Automates 50-70% of routine financial tasks while improving accuracy and enabling real-time financial visibility.",
     triggers := ["financ", "budget", "account", "audit", "tax", "cost", "revenue", "invoic", "payroll", "compliance"] },
   { name := "Quality & Compliance Agent", icon := "shield",
     desc := "Monitors standards adherence, performs automated inspections, tracks regulatory changes, and generates compliance documentation.",
     business_value := "Reduces compliance gaps by continuous monitoring, cutting audit preparation time by 60% and violation risk by 40%.",
     triggers := ["quality", "compliance", "regulat", "standard", "inspect", "audit", "safety", "certif", "policy"] },
   { name := "Training & Knowledge Agent", icon := "book-open",
     desc := "Creates personalized learning paths, generates training materials, answers knowledge-base queries, and tracks skill development progress.",
     business_value := "Reduces onboarding time by 40%, provides 24/7 knowledge access, and adapts training to individual learning pace.",
     triggers := ["train", "educat", "instruct", "teach", "learn", "develop skill", "mentor", "onboard", "knowledge"] }]

/-- One entry of `_AI_SKILLS_CATALOG`. -/
structure Skill where
  name : String
  desc : String
  relevance : String
  triggers : List String
deriving DecidableEq, Repr

/-- `_AI_SKILLS_CATALOG`. -/
def AI_SKILLS_CATALOG : List Skill :=
  [{ name := "Prompt Engineering & AI Direction",
     desc := "Crafting effective instructions for AI systems to produce accurate, relevant outputs. Includes iterative refinement, context-setting, and output validation techniques.",
     relevance := "universal", triggers := [] },
   { name := "AI Output Validation & Critical Review",
     desc := "Evaluating AI-generated content for accuracy, bias, hallucination, and alignment with professional standards before use in decision-making.",
     relevance := "universal", triggers := [] },
   { name := "Human-AI Workflow Design",
     desc := "Designing processes that optimally distribute tasks between human professionals and AI agents, maximizing both efficiency and quality.",
     relevance := "universal", triggers := [] },
   { name := "Data Literacy for AI",
     desc := "Understanding data quality, statistical concepts, and dataset characteristics to effectively leverage AI analytics and interpret machine-generated insights.",
     relevance := "data",
     triggers := ["analyz", "data", "statistic", "research", "evaluat", "assess", "report", "metric"] },
   { name := "AI-Augmented Decision Making",
     desc := "Integrating AI-generated analysis and recommendations into professional judgment frameworks while maintaining accountability and ethical standards.",
     relevance := "analysis",
     triggers := ["evaluat", "assess", "diagnos", "plan", "strateg", "decision", "recommend", "priorit"] },
   { name := "Automation & Agent Orchestration",
     desc := "Selecting, configuring, and chaining AI agents to automate multi-step business processes. Includes monitoring agent performance and handling exceptions.",
     relevance := "process",
     triggers := ["process", "coordinat", "manag", "workflow", "schedul", "system", "implement"] },
   { name := "AI Ethics & Responsible Use",
     desc := "Recognizing bias risks, privacy implications, and ethical boundaries when deploying AI in professional contexts. Ensuring equitable and transparent AI use.",
     relevance := "ethics",
     triggers := ["ethic", "regulat", "compliance", "policy", "patient", "client", "counsel", "legal"] },
   { name := "Creative AI Collaboration",
     desc := "Using generative AI as a creative partner for ideation, prototyping, and content development while preserving originality and professional voice.",
     relevance := "creative",
     triggers := ["design", "creat", "develop", "writ", "innovat", "concept", "prototype", "content"] },
   { name := "AI-Powered Communication",
     desc := "Leveraging AI tools for drafting, translating, summarizing, and personalizing communications across channels and audiences at scale.",
     relevance := "communication",
     triggers := ["communicat", "present", "writ", "correspond", "report", "client", "stakeholder"] },
   { name := "Continuous Learning & AI Adaptation",
     desc := "Staying current with rapidly evolving AI capabilities, evaluating new tools, and continuously updating professional workflows to leverage emerging technology.",
     relevance := "universal", triggers := [] }]

/-- A Python value found under a task's `score` key: either a dict with an
optional `value` entry, or a bare number. -/
inductive ScoreVal where
  | s_dict (value : Option ℚ)
  | s_num (v : ℚ)
deriving DecidableEq, Repr

/-- An input task dict; a `none` field models a missing key. -/
structure InputTask where
  statement : Option String
  score : Option ScoreVal
  category : Option String
deriving DecidableEq, Repr

/-- An input skill/knowledge dict; a `none` field models a missing key. -/
structure InputElem where
  name : Option String
  description : Option String
deriving DecidableEq, Repr

/-- `t["statement"]`: raises a KeyError when the key is missing. -/
def getStatement (t : InputTask) : Except String String :=
  match t.statement with
  | some s => Except.ok s
  | none => Except.error "KeyError: statement"

/-- Line 837: `t["score"]["value"] if isinstance(t["score"], dict) else
t["score"]`; raises a KeyError when `score` (or `value` inside a dict) is
missing. -/
def getImportance (t : InputTask) : Except String ℚ :=
  match t.score with
  | none => Except.error "KeyError: score"
  | some (ScoreVal.s_dict none) => Except.error "KeyError: value"
  | some (ScoreVal.s_dict (some v)) => Except.ok v
  | some (ScoreVal.s_num v) => Except.ok v

/-- `e["name"]`: raises a KeyError when the key is missing. -/
def getName (e : InputElem) : Except String String :=
  match e.name with
  | some s => Except.ok s
  | none => Except.error "KeyError: name"

/-- The needle is a leading segment of the hay. -/
def leadMatch : List Char → List Char → Bool
  | [], _ => true
  | _ :: _, [] => false
  | c :: cs, d :: ds => c == d && leadMatch cs ds

/-- The needle occurs contiguously somewhere in the hay. -/
def subMatch (needle : List Char) : List Char → Bool
  | [] => leadMatch needle []
  | c :: t => leadMatch needle (c :: t) || subMatch needle t

/-- Python `needle in hay` on strings: substring test. -/
def strContains (hay needle : String) : Bool :=
  subMatch needle.toList hay.toList

/-- Python `str.lower()` (ASCII fragment). -/
def pyLower (s : String) : String := String.mk (s.toList.map Char.toLower)

/-- Evaluate a Python list comprehension left to right: the first raised
KeyError propagates, otherwise the list of results is produced. -/
def mapME (f : α → Except String β) : List α → Except String (List β)
  | [] => Except.ok []
  | a :: as =>
    match f a with
    | Except.error e => Except.error e
    | Except.ok b =>
      match mapME f as with
      | Except.error e => Except.error e
      | Except.ok bs => Except.ok (b :: bs)

/-- `s["name"] + " " + s.get("description", "")` for a skill/knowledge
entry. -/
def elemText (e : InputElem) : Except String String :=
  match getName e with
  | Except.error err => Except.error err
  | Except.ok n => Except.ok (n ++ " " ++ e.description.getD "")

/-- The lower-cased corpus built by `recommend_agents`: task statements plus
skill and knowledge names and descriptions, joined by single spaces. -/
def agent_corpus (tasks : List InputTask) (skills knowledge : List InputElem) :
    Except String String :=
  match mapME getStatement tasks with
  | Except.error e => Except.error e
  | Except.ok tparts =>
    match mapME elemText skills with
    | Except.error e => Except.error e
    | Except.ok sparts =>
      match mapME elemText knowledge with
      | Except.error e => Except.error e
      | Except.ok kparts =>
        Except.ok (pyLower (String.intercalate " " (tparts ++ sparts ++ kparts)))

/-- An agent together with its relevance score
(`{**agent, "relevance_score": ...}`). -/
structure AgentRec where
  agent : Agent
  relevance_score : ℤ
deriving DecidableEq, Repr

/-- `sum(1 for kw in triggers if kw in all_text)`. -/
def countTriggers (all_text : String) (triggers : List String) : ℕ :=
  triggers.countP fun kw => strContains all_text kw

/-- The `scored_agents` list of `recommend_agents` before sorting: catalog
order, agents with zero trigger matches dropped, relevance
`min(100, score * 15)`. -/
def scored_agents_of (all_text : String) : List AgentRec :=
  AI_AGENT_CATALOG.filterMap fun agent =>
    let score := countTriggers all_text agent.triggers
    if score > 0 then
      some { agent := agent, relevance_score := min 100 ((score : ℤ) * 15) }
    else none

/-- The ordering used by `scored_agents.sort(key=..., reverse=True)`:
descending relevance score; on ties the earlier (catalog-order) element
stays first. A stable sort's output is unique, so Python's stable `sort` is
modelled exactly by the stable `List.insertionSort`. -/
def agentOrder (a b : AgentRec) : Prop := b.relevance_score ≤ a.relevance_score

instance : DecidableRel agentOrder := fun a b =>
  inferInstanceAs (Decidable (b.relevance_score ≤ a.relevance_score))

/-- `recommend_agents`: score and rank AI agents by trigger matches against
the corpus; agents scoring 0 are dropped, the rest are stably sorted by
descending relevance and truncated to the top 8. -/
def recommend_agents (tasks : List InputTask) (skills knowledge : List InputElem) :
    Except String (List AgentRec) :=
  match agent_corpus tasks skills knowledge with
  | Except.error e => Except.error e
  | Except.ok all_text =>
    Except.ok (((scored_agents_of all_text).insertionSort agentOrder).take 8)

/-- The skill priority labels. -/
inductive Priority where
  | Essential
  | High
  | Recommended
deriving DecidableEq, Repr

/-- A skill together with its priority (`{**skill, "priority": ...}`). -/
structure SkillRec where
  skill : Skill
  priority : Priority
deriving DecidableEq, Repr

/-- The lower-cased corpus built by `recommend_ai_skills`: task statements
only, joined by single spaces. -/
def skills_corpus (tasks : List InputTask) : Except String String :=
  match mapME getStatement tasks with
  | Except.error e => Except.error e
  | Except.ok tparts => Except.ok (pyLower (String.intercalate " " tparts))

/-- The selection loop of `recommend_ai_skills`: universal skills are always
included as Essential; otherwise trigger matches decide High (at least 2) /
Recommended (exactly 1) / excluded (0). -/
def skill_selection (all_text : String) : List SkillRec :=
  AI_SKILLS_CATALOG.filterMap fun skill =>
    if skill.relevance = "universal" then
      some { skill := skill, priority := Priority.Essential }
    else
      let hits := countTriggers all_text skill.triggers
      if hits ≥ 2 then some { skill := skill, priority := Priority.High }
      else if hits ≥ 1 then some { skill := skill, priority := Priority.Recommended }
      else none

/-- The orchestration boost applied to one entry when `auto_pct > 0.3`:
skills whose name contains "Orchestration" are upgraded to Essential. -/
def boostOrchestration (r : SkillRec) : SkillRec :=
  if strContains r.skill.name "Orchestration" then
    { r with priority := Priority.Essential }
  else r

/-- One entry of the `task_analysis` list built by `analyze_ai_impact`. -/
structure TaskAnalysis where
  statement : String
  importance : ℚ
  category : String
  efficiency : ℤ
  quality : ℤ
  cost : ℤ
  revenue : ℤ
  service : ℤ
  avg_score : ℚ
  classification : Classification
deriving DecidableEq, Repr

/-- `recommend_ai_skills`: select skills by trigger matching, then boost
orchestration skills to Essential when more than 30% of the tasks are
classified automate. -/
def recommend_ai_skills (tasks : List InputTask)
    (task_classifications : List TaskAnalysis) : Except String (List SkillRec) :=
  match skills_corpus tasks with
  | Except.error e => Except.error e
  | Except.ok all_text =>
    let auto_pct : ℚ :=
      ((task_classifications.countP fun c =>
          c.classification == Classification.automate : ℕ) : ℚ) /
        ((max task_classifications.length 1 : ℕ) : ℚ)
    let recommended := skill_selection all_text
    Except.ok (if auto_pct > 3/10 then recommended.map boostOrchestration
               else recommended)

/-- The `element_scores` dict (its five keys are fixed). -/
structure ElementScores where
  efficiency : ℚ
  quality : ℚ
  cost : ℚ
  revenue : ℚ
  service : ℚ
deriving DecidableEq, Repr

/-- The `distribution` dict of classification counts. -/
structure Distribution where
  automate : ℕ
  augment : ℕ
  human : ℕ
deriving DecidableEq, Repr

/-- One iteration of the element-averages loop (lines 847-849):
`avg = sum(t[key] for t in task_analysis) / n_total if task_analysis else 0`
followed by `round(avg, 1)`. -/
def element_average (task_analysis : List TaskAnalysis) (f : TaskAnalysis → ℤ) : ℚ :=
  let n_total : ℕ := max task_analysis.length 1
  pyRound1 (if task_analysis.isEmpty then 0
            else (((task_analysis.map f).sum : ℤ) : ℚ) / (n_total : ℚ))

/-- Lines 851-853: the composite overall score,
`min(95, max(5, int((avg_of_elements / 9.0) * 100)))` where
`avg_of_elements` is the mean of the five element averages (the
`element_scores` dict always has its five keys, so its truthiness test is
always true). -/
def overall_from_elements (element_scores : ElementScores) : ℤ :=
  let avg_of_elements : ℚ :=
    (element_scores.efficiency + element_scores.quality + element_scores.cost +
      element_scores.revenue + element_scores.service) / 5
  min 95 (max 5 (pyInt ((avg_of_elements / 9) * 100)))

/-- Lines 862-873: the impact level label from the overall score. -/
def impact_level_of (overall_score : ℤ) : String :=
  if overall_score ≥ 75 then "Transformative"
  else if overall_score ≥ 55 then "Significant"
  else if overall_score ≥ 35 then "Moderate"
  else "Limited"

/-- The fields of the result dict of `analyze_ai_impact` that carry engine
logic (the narrative strings `role_summary` / `outlook` and `impact_color`
are plain text assembly over these values and are omitted, as are the
`summary` and `abilities` parameters they alone consume). -/
structure ImpactResult where
  task_analysis : List TaskAnalysis
  element_scores : ElementScores
  distribution : Distribution
  overall_score : ℤ
  impact_level : String
  agents : List AgentRec
  ai_skills : List SkillRec
deriving DecidableEq, Repr

/-- One iteration of the per-task loop of `analyze_ai_impact`
(lines 833-840). -/
def analyze_task (t : InputTask) : Except String TaskAnalysis :=
  match getStatement t with
  | Except.error e => Except.error e
  | Except.ok stmt =>
    match getImportance t with
    | Except.error e => Except.error e
    | Except.ok importance =>
      let scores := score_task_elements stmt
      Except.ok { statement := stmt, importance := importance,
                  category := t.category.getD "",
                  efficiency := scores.efficiency, quality := scores.quality,
                  cost := scores.cost, revenue := scores.revenue,
                  service := scores.service, avg_score := scores.avg_score,
                  classification := scores.classification }

/-- The pure tail of `analyze_ai_impact` once the per-task loop has produced
`task_analysis` and the two recommenders have succeeded. -/
def assemble_impact (task_analysis : List TaskAnalysis)
    (agents : List AgentRec) (ai_skills : List SkillRec) : ImpactResult :=
  let element_scores : ElementScores :=
    { efficiency := element_average task_analysis (·.efficiency),
      quality := element_average task_analysis (·.quality),
      cost := element_average task_analysis (·.cost),
      revenue := element_average task_analysis (·.revenue),
      service := element_average task_analysis (·.service) }
  let overall_score := overall_from_elements element_scores
  let distribution : Distribution :=
    { automate := task_analysis.countP fun t => t.classification == Classification.automate,
      augment := task_analysis.countP fun t => t.classification == Classification.augment,
      human := task_analysis.countP fun t => t.classification == Classification.human }
  let impact_level := impact_level_of overall_score
  { task_analysis := task_analysis, element_scores := element_scores,
    distribution := distribution, overall_score := overall_score,
    impact_level := impact_level, agents := agents, ai_skills := ai_skills }

/-- `analyze_ai_impact`: the five-element AI business impact analysis for an
occupation. -/
def analyze_ai_impact (tasks : List InputTask) (skills knowledge : List InputElem) :
    Except String ImpactResult :=
  match mapME analyze_task tasks with
  | Except.error e => Except.error e
  | Except.ok task_analysis =>
    match recommend_agents tasks skills knowledge with
    | Except.error e => Except.error e
    | Except.ok agents =>
      match recommend_ai_skills tasks task_analysis with
      | Except.error e => Except.error e
      | Except.ok ai_skills =>
        Except.ok (assemble_impact task_analysis agents ai_skills)

/-- Modelled from the spec: the overall-score formula as §4.4 states it,
`clamp(round(mean(ElementAverages.values()) / 9 × 100), 5, 95)`, with
`round` where the code uses `int` truncation; defined only to compare the
spec wording against `overall_from_elements`. -/
def claimed_overall_from_elements (element_scores : ElementScores) : ℤ :=
  let avg_of_elements : ℚ :=
    (element_scores.efficiency + element_scores.quality + element_scores.cost +
      element_scores.revenue + element_scores.service) / 5
  min 95 (max 5 (pyRound ((avg_of_elements / 9) * 100)))

/-- Rank of the impact labels in increasing severity, to state that
`impact_level_of` is monotone. -/
def levelRank : String → ℕ
  | "Moderate" => 1
  | "Significant" => 2
  | "Transformative" => 3
  | _ => 0

/-- A well-formed task whose statement is the single word "review". -/
def reviewTask : InputTask :=
  { statement := some "review", score := some (ScoreVal.s_num 50),
    category := some "Core" }

/-- A task lacking the `score` key. -/
def noScoreTask : InputTask :=
  { statement := some "x", score := none, category := none }

/-- A task whose statement contains all eight triggers of the Data Analytics
Agent. -/
def analyticsTask : InputTask :=
  { statement := some "analyze data statistics report trend forecast metrics dashboard",
    score := some (ScoreVal.s_num 50), category := none }

/-- The corpus `recommend_agents` builds from `[analyticsTask]` alone. -/
def analyticsCorpus : String :=
  "analyze data statistics report trend forecast metrics dashboard"

/-- The agent list returned for `[analyticsTask]`. -/
def analyticsAgents : List AgentRec :=
  ((scored_agents_of analyticsCorpus).insertionSort agentOrder).take 8

/-- A task whose statement holds two triggers of the orchestration skill. -/
def processTask : InputTask :=
  { statement := some "process workflow", score := some (ScoreVal.s_num 0),
    category := none }

/-- A task-analysis entry classified automate. -/
def autoTA : TaskAnalysis :=
  { statement := "", importance := 0, category := "", efficiency := 9,
    quality := 9, cost := 9, revenue := 9, service := 9, avg_score := 9,
    classification := Classification.automate }

/-- The first (universal) entry of the skill catalog. -/
def firstUniversalSkill : Skill := AI_SKILLS_CATALOG.get ⟨0, by decide⟩

/-- The orchestration entry of the skill catalog. -/
def orchSkill : Skill := AI_SKILLS_CATALOG.get ⟨5, by decide⟩

/-- The orchestration skill at priority Essential. -/
def orchRecB : SkillRec := { skill := orchSkill, priority := Priority.Essential }

/-- The skill list returned for `[processTask]` when the automate fraction
exceeds 0.3. -/
def processSkillsBoosted : List SkillRec :=
  (skill_selection "process workflow").map boostOrchestration

/-- The full result of `analyze_ai_impact` on `[reviewTask]`. -/
def reviewResult : ImpactResult :=
  { task_analysis :=
      [{ statement := "review", importance := 50, category := "Core",
         efficiency := 1, quality := 1, cost := 1, revenue := 0, service := 1,
         avg_score := 4/5, classification := Classification.human }],
    element_scores :=
      { efficiency := 1, quality := 1, cost := 1, revenue := 0, service := 1 },
    distribution := { automate := 0, augment := 0, human := 1 },
    overall_score := 8,
    impact_level := "Limited",
    agents := [{ agent := AI_AGENT_CATALOG.get ⟨2, by decide⟩,
                 relevance_score := 15 }],
    ai_skills := skill_selection "review" }

/-! ## Helper lemmas -/

theorem pyRound_intCast (n : ℤ) : pyRound (n : ℚ) = n := by
  unfold pyRound
  rw [Int.floor_intCast, sub_self]
  norm_num

theorem pyRound1_int_div_five (n : ℤ) : pyRound1 ((n : ℚ) / 5) = (n : ℚ) / 5 := by
  unfold pyRound1
  have h : ((n : ℚ) / 5) * 10 = ((2 * n : ℤ) : ℚ) := by push_cast; ring
  rw [h, pyRound_intCast]
  push_cast
  ring

theorem score_element_def (s : String) (kw : KeywordDict) :
    score_element s kw =
      min 9 (max 0 (pyRound ((match_keywords s kw.strong : ℚ) * 2 +
        (match_keywords s kw.moderate : ℚ) * 1))) := rfl

theorem score_element_eq_int (s : String) (kw : KeywordDict) :
    score_element s kw =
      min 9 ((match_keywords s kw.strong : ℤ) * 2 + (match_keywords s kw.moderate : ℤ)) := by
  rw [score_element_def]
  have h : ((match_keywords s kw.strong : ℚ) * 2 + (match_keywords s kw.moderate : ℚ) * 1) =
      (((match_keywords s kw.strong : ℤ) * 2 + (match_keywords s kw.moderate : ℤ) : ℤ) : ℚ) := by
    push_cast
    ring
  rw [h, pyRound_intCast, max_eq_right]
  omega

theorem score_element_nonneg (s : String) (kw : KeywordDict) : 0 ≤ score_element s kw := by
  rw [score_element_eq_int]
  omega

theorem score_element_le_nine (s : String) (kw : KeywordDict) : score_element s kw ≤ 9 := by
  rw [score_element_eq_int]
  omega

theorem ste_efficiency (s : String) :
    (score_task_elements s).efficiency = score_element s EFFICIENCY_KEYWORDS := rfl

theorem ste_quality (s : String) :
    (score_task_elements s).quality = score_element s QUALITY_KEYWORDS := rfl

theorem ste_cost (s : String) :
    (score_task_elements s).cost = score_element s COST_KEYWORDS := rfl

theorem ste_revenue (s : String) :
    (score_task_elements s).revenue = score_element s REVENUE_KEYWORDS := rfl

theorem ste_service (s : String) :
    (score_task_elements s).service = score_element s SERVICE_KEYWORDS := rfl

theorem ste_avg_score (s : String) :
    (score_task_elements s).avg_score =
      pyRound1 (((score_element s EFFICIENCY_KEYWORDS : ℚ) +
        score_element s QUALITY_KEYWORDS + score_element s COST_KEYWORDS +
        score_element s REVENUE_KEYWORDS + score_element s SERVICE_KEYWORDS) / 5) := rfl

theorem ste_classification (s : String) :
    (score_task_elements s).classification =
      classify_avg (((score_element s EFFICIENCY_KEYWORDS : ℚ) +
        score_element s QUALITY_KEYWORDS + score_element s COST_KEYWORDS +
        score_element s REVENUE_KEYWORDS + score_element s SERVICE_KEYWORDS) / 5) := rfl

theorem classify_avg_automate {a : ℚ} :
    classify_avg a = Classification.automate ↔ 5 ≤ a := by
  unfold classify_avg
  split_ifs with h1 h2 <;> simp_all [ge_iff_le]

theorem classify_avg_augment {a : ℚ} :
    classify_avg a = Classification.augment ↔ 5 / 2 ≤ a ∧ a < 5 := by
  unfold classify_avg
  split_ifs with h1 h2 <;> simp_all [ge_iff_le]

theorem classify_avg_human {a : ℚ} :
    classify_avg a = Classification.human ↔ a < 5 / 2 := by
  unfold classify_avg
  split_ifs with h1 h2 <;> simp_all [ge_iff_le]
  linarith

/-- The total cast sum of a task's five element scores. -/
theorem ste_sum_cast (s : String) :
    ((score_element s EFFICIENCY_KEYWORDS : ℚ) + score_element s QUALITY_KEYWORDS +
      score_element s COST_KEYWORDS + score_element s REVENUE_KEYWORDS +
      score_element s SERVICE_KEYWORDS) =
      (((score_element s EFFICIENCY_KEYWORDS + score_element s QUALITY_KEYWORDS +
        score_element s COST_KEYWORDS + score_element s REVENUE_KEYWORDS +
        score_element s SERVICE_KEYWORDS : ℤ) : ℚ)) := by
  push_cast
  ring

/-! ## Claim theorems -/

/-- C1: for every task statement and every dimension keyword set (in
particular each of the five catalog dimensions, whose pattern lists are
duplicate-free), the element scorer returns
`min(9, max(0, round(2.0 * strong_hits + 1.0 * moderate_hits)))` where the
hit counts are counts of distinct patterns matching (each pattern counted at
most once, being a count over the filtered pattern list), so the result is
an integer in `[0, 9]`. -/
theorem elementScorer_formula_spec :
    (∀ s : String, ∀ kw : KeywordDict,
      score_element s kw =
        min 9 (max 0 (pyRound (2 * (match_keywords s kw.strong : ℚ) +
          1 * (match_keywords s kw.moderate : ℚ)))) ∧
      score_element s kw =
        min 9 ((match_keywords s kw.strong : ℤ) * 2 + (match_keywords s kw.moderate : ℤ)) ∧
      0 ≤ score_element s kw ∧ score_element s kw ≤ 9 ∧
      match_keywords s kw.strong =
        (kw.strong.filter fun p => reSearch p (s.toList.map Char.toLower)).length ∧
      match_keywords s kw.moderate =
        (kw.moderate.filter fun p => reSearch p (s.toList.map Char.toLower)).length) ∧
    EFFICIENCY_KEYWORDS.strong.Nodup ∧ EFFICIENCY_KEYWORDS.moderate.Nodup ∧
    QUALITY_KEYWORDS.strong.Nodup ∧ QUALITY_KEYWORDS.moderate.Nodup ∧
    COST_KEYWORDS.strong.Nodup ∧ COST_KEYWORDS.moderate.Nodup ∧
    REVENUE_KEYWORDS.strong.Nodup ∧ REVENUE_KEYWORDS.moderate.Nodup ∧
    SERVICE_KEYWORDS.strong.Nodup ∧ SERVICE_KEYWORDS.moderate.Nodup := by
  refine ⟨fun s kw => ⟨?_, score_element_eq_int s kw, score_element_nonneg s kw,
    score_element_le_nine s kw, ?_, ?_⟩,
    by decide, by decide, by decide, by decide, by decide,
    by decide, by decide, by decide, by decide, by decide⟩
  · rw [score_element_def]
    have h : (2 * (match_keywords s kw.strong : ℚ) + 1 * (match_keywords s kw.moderate : ℚ)) =
        (match_keywords s kw.strong : ℚ) * 2 + (match_keywords s kw.moderate : ℚ) * 1 := by
      ring
    rw [h]
  · unfold match_keywords
    exact List.countP_eq_length_filter _ _
  · unfold match_keywords
    exact List.countP_eq_length_filter _ _

/-- C2: for every task, `avg_score` is the mean of the five dimension
scores rounded to one decimal, and the classification falls out of
`avg_score` by the documented inclusive boundaries: `avg_score ≥ 5.0` is
automate, `2.5 ≤ avg_score < 5.0` is augment, `avg_score < 2.5` is human
(so 5.0 yields automate, 2.5 yields augment and 2.4 yields human). -/
theorem taskClassifier_boundaries_spec (st : String) :
    (score_task_elements st).avg_score =
      pyRound1 ((((score_task_elements st).efficiency + (score_task_elements st).quality +
        (score_task_elements st).cost + (score_task_elements st).revenue +
        (score_task_elements st).service : ℤ) : ℚ) / 5) ∧
    ((score_task_elements st).classification = Classification.automate ↔
      5 ≤ (score_task_elements st).avg_score) ∧
    ((score_task_elements st).classification = Classification.augment ↔
      5 / 2 ≤ (score_task_elements st).avg_score ∧ (score_task_elements st).avg_score < 5) ∧
    ((score_task_elements st).classification = Classification.human ↔
      (score_task_elements st).avg_score < 5 / 2) := by
  simp only [ste_avg_score, ste_classification, ste_efficiency, ste_quality, ste_cost,
    ste_revenue, ste_service]
  rw [ste_sum_cast, pyRound1_int_div_five]
  exact ⟨rfl, classify_avg_automate, classify_avg_augment, classify_avg_human⟩

/-- C10: the reported `avg_score` equals the exact unrounded mean of the
five integer dimension scores (a multiple of 0.2, so the one-decimal
rounding changes nothing and is idempotent on it), the classification the
code derives from the unrounded mean coincides with the one derived from
the reported `avg_score`, and `avg_score` lies in `[0, 9]`. -/
theorem avgScore_fifths_spec (st : String) :
    (score_task_elements st).avg_score =
      (((score_task_elements st).efficiency + (score_task_elements st).quality +
        (score_task_elements st).cost + (score_task_elements st).revenue +
        (score_task_elements st).service : ℤ) : ℚ) / 5 ∧
    pyRound1 ((score_task_elements st).avg_score) = (score_task_elements st).avg_score ∧
    (∃ k : ℤ, (score_task_elements st).avg_score = (k : ℚ) * (1 / 5)) ∧
    (score_task_elements st).classification =
      classify_avg ((score_task_elements st).avg_score) ∧
    0 ≤ (score_task_elements st).avg_score ∧ (score_task_elements st).avg_score ≤ 9 := by
  simp only [ste_avg_score, ste_classification, ste_efficiency, ste_quality, ste_cost,
    ste_revenue, ste_service]
  rw [ste_sum_cast, pyRound1_int_div_five]
  have hE0 := score_element_nonneg st EFFICIENCY_KEYWORDS
  have hQ0 := score_element_nonneg st QUALITY_KEYWORDS
  have hC0 := score_element_nonneg st COST_KEYWORDS
  have hR0 := score_element_nonneg st REVENUE_KEYWORDS
  have hS0 := score_element_nonneg st SERVICE_KEYWORDS
  have hE9 := score_element_le_nine st EFFICIENCY_KEYWORDS
  have hQ9 := score_element_le_nine st QUALITY_KEYWORDS
  have hC9 := score_element_le_nine st COST_KEYWORDS
  have hR9 := score_element_le_nine st REVENUE_KEYWORDS
  have hS9 := score_element_le_nine st SERVICE_KEYWORDS
  refine ⟨rfl, pyRound1_int_div_five _, ⟨_, by ring⟩, rfl, ?_, ?_⟩
  · have h0 : (0 : ℚ) ≤ ((score_element st EFFICIENCY_KEYWORDS +
        score_element st QUALITY_KEYWORDS + score_element st COST_KEYWORDS +
        score_element st REVENUE_KEYWORDS + score_element st SERVICE_KEYWORDS : ℤ) : ℚ) := by
      exact_mod_cast by omega
    linarith
  · have h45 : (((score_element st EFFICIENCY_KEYWORDS +
        score_element st QUALITY_KEYWORDS + score_element st COST_KEYWORDS +
        score_element st REVENUE_KEYWORDS + score_element st SERVICE_KEYWORDS : ℤ) : ℚ)) ≤ 45 := by
      exact_mod_cast by omega
    linarith

/-- C7: `impact_level` is the deterministic function of `overall_score`
with inclusive lower-bound thresholds checked in descending order — `≥ 75`
Transformative, `≥ 55` Significant, `≥ 35` Moderate, below that Limited —
and it is monotone in `overall_score`. -/
theorem impactLevel_thresholds_spec :
    (∀ n : ℤ, (75 ≤ n → impact_level_of n = "Transformative") ∧
      (55 ≤ n ∧ n < 75 → impact_level_of n = "Significant") ∧
      (35 ≤ n ∧ n < 55 → impact_level_of n = "Moderate") ∧
      (n < 35 → impact_level_of n = "Limited")) ∧
    (∀ a b : ℤ, a ≤ b → levelRank (impact_level_of a) ≤ levelRank (impact_level_of b)) := by
  constructor
  · intro n
    refine ⟨fun h => ?_, fun h => ?_, fun h => ?_, fun h => ?_⟩ <;>
      · unfold impact_level_of
        split_ifs <;> first | rfl | omega
  · intro a b hab
    unfold impact_level_of
    split_ifs <;> first | decide | omega

/-- C7 witness: the boundary values map to the higher label and the order
is respected. -/
theorem impactLevel_thresholds_witness :
    impact_level_of 75 = "Transformative" ∧ impact_level_of 55 = "Significant" ∧
    impact_level_of 35 = "Moderate" ∧ impact_level_of 34 = "Limited" ∧
    levelRank (impact_level_of 34) ≤ levelRank (impact_level_of 75) :=
  ⟨(impactLevel_thresholds_spec.1 75).1 (by decide),
   (impactLevel_thresholds_spec.1 55).2.1 (by decide),
   (impactLevel_thresholds_spec.1 35).2.2.1 (by decide),
   (impactLevel_thresholds_spec.1 34).2.2.2 (by decide),
   impactLevel_thresholds_spec.2 34 75 (by decide)⟩

/-- C4 counterexample: on the empty task list the code returns
`overall_score = 5`, not the claimed neutral default 50 (there is no such
special case in the code: the clamp lower bound 5 applies). -/
theorem emptyTasks_fifty_cex :
    (analyze_ai_impact [] [] []).map (fun r => r.overall_score) = Except.ok 5 ∧
    (5 : ℤ) ≠ 50 :=
  ⟨by with_unfolding_all rfl, by decide⟩

/-- C4 amended: aggregation over an empty task list raises no error and
yields `overall_score = 5` (the clamp lower bound, not 50), all five
element averages 0, an all-zero distribution, and impact level Limited. -/
theorem emptyTasks_neutral_spec :
    (analyze_ai_impact [] [] []).map
      (fun r => (r.overall_score, r.element_scores, r.distribution, r.impact_level)) =
      Except.ok (5,
        { efficiency := 0, quality := 0, cost := 0, revenue := 0, service := 0 },
        { automate := 0, augment := 0, human := 0 }, "Limited") := by
  with_unfolding_all rfl

/-- The result record of `analyze_ai_impact` scores with
`overall_from_elements` applied to its own element averages. -/
theorem assemble_overall_eq (ta : List TaskAnalysis) (ag : List AgentRec)
    (sk : List SkillRec) :
    (assemble_impact ta ag sk).overall_score =
      overall_from_elements (assemble_impact ta ag sk).element_scores := rfl

theorem overall_from_elements_bounds (es : ElementScores) :
    5 ≤ overall_from_elements es ∧ overall_from_elements es ≤ 95 := by
  unfold overall_from_elements
  dsimp only
  omega

/-- Inversion of a successful run of `analyze_ai_impact`. -/
theorem analyze_ok_iff (tasks : List InputTask) (skills knowledge : List InputElem)
    (r : ImpactResult) :
    analyze_ai_impact tasks skills knowledge = Except.ok r ↔
      ∃ ta ag sk, mapME analyze_task tasks = Except.ok ta ∧
        recommend_agents tasks skills knowledge = Except.ok ag ∧
        recommend_ai_skills tasks ta = Except.ok sk ∧
        r = assemble_impact ta ag sk := by
  constructor
  · intro h
    unfold analyze_ai_impact at h
    split at h
    · cases h
    next ta heq =>
      split at h
      · cases h
      next ag heq2 =>
        split at h
        · cases h
        next sk heq3 =>
          cases h
          exact ⟨ta, ag, sk, heq, heq2, heq3, rfl⟩
  · rintro ⟨ta, ag, sk, hta, hag, hsk, hr⟩
    unfold analyze_ai_impact
    simp only [hta, hag, hsk, hr]

/-- C3 counterexample: on the single task "review" the code's
`overall_score` is 8 (truncation) while the claimed formula with `round`
would give 9 on the very same element averages. -/
theorem overallScore_round_cex :
    (analyze_ai_impact [reviewTask] [] []).map
      (fun r => (r.overall_score, claimed_overall_from_elements r.element_scores)) =
      Except.ok (8, 9) ∧ (8 : ℤ) ≠ 9 :=
  ⟨by with_unfolding_all rfl, by decide⟩

/-- C3 amended: for every task list (in particular non-empty ones), a
successful aggregation returns
`overall_score = clamp(int(mean(element averages) / 9 * 100), 5, 95)` — the
code truncates toward zero with `int(...)` instead of rounding — and the
score always lies within `[5, 95]`. -/
theorem overallScore_truncation_spec (tasks : List InputTask)
    (skills knowledge : List InputElem) (r : ImpactResult)
    (_hne : tasks ≠ [])
    (h : analyze_ai_impact tasks skills knowledge = Except.ok r) :
    r.overall_score =
      min 95 (max 5 (pyInt ((((r.element_scores.efficiency + r.element_scores.quality +
        r.element_scores.cost + r.element_scores.revenue +
        r.element_scores.service) / 5) / 9) * 100))) ∧
    5 ≤ r.overall_score ∧ r.overall_score ≤ 95 := by
  obtain ⟨ta, ag, sk, hta, hag, hsk, hr⟩ := (analyze_ok_iff tasks skills knowledge r).mp h
  subst hr
  refine ⟨rfl, ?_, ?_⟩
  · rw [assemble_overall_eq]
    exact (overall_from_elements_bounds _).1
  · rw [assemble_overall_eq]
    exact (overall_from_elements_bounds _).2

/-- C3 witness: the amended formula holds on the concrete run for the
single task "review". -/
theorem overallScore_truncation_witness :
    reviewResult.overall_score =
      min 95 (max 5 (pyInt ((((reviewResult.element_scores.efficiency +
        reviewResult.element_scores.quality + reviewResult.element_scores.cost +
        reviewResult.element_scores.revenue +
        reviewResult.element_scores.service) / 5) / 9) * 100))) ∧
    5 ≤ reviewResult.overall_score ∧ reviewResult.overall_score ≤ 95 :=
  overallScore_truncation_spec [reviewTask] [] [] reviewResult (by simp)
    (by with_unfolding_all rfl)

theorem getStatement_ok {t : InputTask} (h : t.statement.isSome) :
    ∃ s, getStatement t = Except.ok s := by
  cases hs : t.statement with
  | some s => exact ⟨s, by simp [getStatement, hs]⟩
  | none => rw [hs] at h; simp at h

theorem elemText_ok {e : InputElem} (h : e.name.isSome) :
    ∃ s, elemText e = Except.ok s := by
  cases hs : e.name with
  | some n => exact ⟨n ++ " " ++ e.description.getD "", by simp [elemText, getName, hs]⟩
  | none => rw [hs] at h; simp at h

theorem analyze_task_ok {t : InputTask} (h1 : t.statement.isSome)
    (h2 : (getImportance t).isOk) : ∃ ta, analyze_task t = Except.ok ta := by
  obtain ⟨s, hs⟩ := getStatement_ok h1
  cases hv : getImportance t with
  | error e => rw [hv] at h2; cases h2
  | ok v =>
    exact ⟨{ statement := s, importance := v, category := t.category.getD "",
             efficiency := (score_task_elements s).efficiency,
             quality := (score_task_elements s).quality,
             cost := (score_task_elements s).cost,
             revenue := (score_task_elements s).revenue,
             service := (score_task_elements s).service,
             avg_score := (score_task_elements s).avg_score,
             classification := (score_task_elements s).classification },
           by unfold analyze_task; rw [hs, hv]⟩

theorem mapME_ok (f : α → Except String β) :
    ∀ l : List α, (∀ a ∈ l, ∃ b, f a = Except.ok b) →
      ∃ bs, mapME f l = Except.ok bs := by
  intro l h
  induction l with
  | nil => exact ⟨[], rfl⟩
  | cons a as ih =>
    obtain ⟨b, hb⟩ := h a (by simp)
    obtain ⟨bs, hbs⟩ := ih fun x hx => h x (by simp [hx])
    exact ⟨b :: bs, by simp [mapME, hb, hbs]⟩

/-- C9 counterexample: a task whose `score` key is missing makes
`analyze_ai_impact` raise a KeyError (line 837 reads `t["score"]`
unguarded) instead of defaulting the importance to 0, so aggregation does
throw on such input. -/
theorem missingScore_keyerror_cex :
    analyze_ai_impact [noScoreTask] [] [] = Except.error "KeyError: score" ∧
    (analyze_ai_impact [noScoreTask] [] []).isOk = false :=
  ⟨rfl, rfl⟩

/-- C9 amended: an empty statement scores 0 on every dimension and an empty
task list aggregates without error, but a task with a missing `score` key
raises a KeyError rather than being treated as importance 0; aggregation
never throws exactly on inputs whose tasks have `statement` and a readable
importance and whose skill/knowledge entries have a `name`. -/
theorem defaults_and_errors_spec :
    ((score_task_elements "").efficiency = 0 ∧ (score_task_elements "").quality = 0 ∧
      (score_task_elements "").cost = 0 ∧ (score_task_elements "").revenue = 0 ∧
      (score_task_elements "").service = 0) ∧
    (analyze_ai_impact [] [] []).isOk = true ∧
    (∀ tasks : List InputTask, ∀ skills knowledge : List InputElem,
      (∀ t ∈ tasks, t.statement.isSome ∧ (getImportance t).isOk) →
      (∀ e ∈ skills, e.name.isSome) →
      (∀ e ∈ knowledge, e.name.isSome) →
      (analyze_ai_impact tasks skills knowledge).isOk = true) := by
  refine ⟨by with_unfolding_all exact ⟨rfl, rfl, rfl, rfl, rfl⟩, rfl, ?_⟩
  intro tasks skills knowledge ht hs hk
  obtain ⟨ta, hta⟩ := mapME_ok analyze_task tasks fun t htm =>
    analyze_task_ok (ht t htm).1 (ht t htm).2
  obtain ⟨ts, hts⟩ := mapME_ok getStatement tasks fun t htm =>
    getStatement_ok (ht t htm).1
  obtain ⟨ss, hss⟩ := mapME_ok elemText skills fun e hem => elemText_ok (hs e hem)
  obtain ⟨ks, hks⟩ := mapME_ok elemText knowledge fun e hem => elemText_ok (hk e hem)
  simp [analyze_ai_impact, recommend_agents, agent_corpus, recommend_ai_skills,
    skills_corpus, hta, hts, hss, hks, Except.isOk, Except.toBool]

/-- C9 witness: a concrete well-formed input aggregates without error. -/
theorem defaults_and_errors_witness :
    (analyze_ai_impact [reviewTask] [] []).isOk = true :=
  defaults_and_errors_spec.2.2 [reviewTask] [] []
    (by intro t htm
        simp only [List.mem_singleton] at htm
        subst htm
        exact ⟨rfl, rfl⟩)
    (by intro e hem; cases hem)
    (by intro e hem; cases hem)

/-- Inversion of a successful run of `recommend_ai_skills`. -/
theorem recommend_ai_skills_ok_iff (tasks : List InputTask)
    (cls : List TaskAnalysis) (l : List SkillRec) :
    recommend_ai_skills tasks cls = Except.ok l ↔
      ∃ c, skills_corpus tasks = Except.ok c ∧
        l = (if ((cls.countP fun x => x.classification == Classification.automate : ℕ) : ℚ) /
              ((max cls.length 1 : ℕ) : ℚ) > 3 / 10
             then (skill_selection c).map boostOrchestration
             else skill_selection c) := by
  constructor
  · intro h
    unfold recommend_ai_skills at h
    split at h
    · cases h
    next c heq =>
      cases h
      exact ⟨c, heq, rfl⟩
  · rintro ⟨c, hc, hl⟩
    unfold recommend_ai_skills
    simp only [hc, hl]

theorem filterMap_skill_sublist (f : Skill → Option SkillRec)
    (hf : ∀ sk r, f sk = some r → r.skill = sk) :
    ∀ L : List Skill, ((L.filterMap f).map fun r => r.skill).Sublist L := by
  intro L
  induction L with
  | nil => simp
  | cons a t ih =>
    rw [List.filterMap_cons]
    cases hx : f a with
    | none => exact ih.cons a
    | some r =>
      rw [List.map_cons, hf a r hx]
      exact ih.cons₂ a

theorem skill_selection_skills_sublist (c : String) :
    ((skill_selection c).map fun r => r.skill).Sublist AI_SKILLS_CATALOG := by
  unfold skill_selection
  refine filterMap_skill_sublist _ (fun sk r hr => ?_) AI_SKILLS_CATALOG
  dsimp only at hr
  split_ifs at hr <;> cases hr <;> rfl

theorem boostOrchestration_skill (r : SkillRec) :
    (boostOrchestration r).skill = r.skill := by
  unfold boostOrchestration
  split <;> rfl

/-- C6 counterexample: the skill catalog has four universal entries, not
three, and on the empty input the unconditional `ai_skills` output has four
entries. -/
theorem universal_count_cex :
    (AI_SKILLS_CATALOG.countP fun sk => sk.relevance == "universal") = 4 ∧
    (recommend_ai_skills [] []).map (fun l => l.length) = Except.ok 4 ∧
    (4 : ℕ) ≠ 3 :=
  ⟨rfl, by with_unfolding_all rfl, by decide⟩

/-- C6 amended: the four (not three) universal entries of the AI Skill
Catalog appear in the output with priority Essential for every input, and on
empty input the output is exactly those four Essential universal entries. -/
theorem universalSkills_spec :
    (∀ tasks : List InputTask, ∀ cls : List TaskAnalysis, ∀ l : List SkillRec,
      recommend_ai_skills tasks cls = Except.ok l →
      ∀ sk ∈ AI_SKILLS_CATALOG, sk.relevance = "universal" →
        ({ skill := sk, priority := Priority.Essential } : SkillRec) ∈ l) ∧
    (AI_SKILLS_CATALOG.countP fun sk => sk.relevance == "universal") = 4 ∧
    (recommend_ai_skills [] []).map
        (fun l => l.map fun r => (r.skill.relevance, r.priority)) =
      Except.ok [("universal", Priority.Essential), ("universal", Priority.Essential),
        ("universal", Priority.Essential), ("universal", Priority.Essential)] := by
  refine ⟨?_, rfl, by with_unfolding_all rfl⟩
  intro tasks cls l h sk hmem hrel
  obtain ⟨c, hc, hl⟩ := (recommend_ai_skills_ok_iff tasks cls l).mp h
  have hsel : ({ skill := sk, priority := Priority.Essential } : SkillRec) ∈
      skill_selection c := by
    unfold skill_selection
    refine List.mem_filterMap.mpr ⟨sk, hmem, ?_⟩
    rw [if_pos hrel]
  subst hl
  split
  · refine List.mem_map.mpr ⟨_, hsel, ?_⟩
    unfold boostOrchestration
    split <;> rfl
  · exact hsel

/-- C6 witness: the first universal catalog entry is in the output of a
concrete run, at priority Essential. -/
theorem universalSkills_witness :
    ({ skill := firstUniversalSkill, priority := Priority.Essential } : SkillRec) ∈
      skill_selection "" :=
  universalSkills_spec.1 [] [] (skill_selection "") (by with_unfolding_all rfl)
    firstUniversalSkill (by decide) (by decide)

/-- C8: when the automate fraction exceeds 0.3, every output skill whose
name contains "Orchestration" has priority Essential; when it does not
exceed 0.3, the output is exactly what trigger matching assigned (no
upgrade); and the output always lists skills in catalog order (its skills
form a subsequence of the catalog). -/
theorem orchestrationBoost_spec (tasks : List InputTask)
    (task_classifications : List TaskAnalysis) (l : List SkillRec)
    (h : recommend_ai_skills tasks task_classifications = Except.ok l) :
    ((((task_classifications.countP fun x =>
          x.classification == Classification.automate : ℕ) : ℚ) /
        ((max task_classifications.length 1 : ℕ) : ℚ) > 3 / 10 →
      ∀ r ∈ l, strContains r.skill.name "Orchestration" = true →
        r.priority = Priority.Essential)) ∧
    ((((task_classifications.countP fun x =>
          x.classification == Classification.automate : ℕ) : ℚ) /
        ((max task_classifications.length 1 : ℕ) : ℚ) ≤ 3 / 10 →
      ∀ c, skills_corpus tasks = Except.ok c → l = skill_selection c)) ∧
    (l.map fun r => r.skill).Sublist AI_SKILLS_CATALOG := by
  obtain ⟨c, hc, hl⟩ := (recommend_ai_skills_ok_iff tasks task_classifications l).mp h
  subst hl
  refine ⟨?_, ?_, ?_⟩
  · intro hgt r hr hname
    rw [if_pos hgt] at hr
    obtain ⟨r0, hr0, hb⟩ := List.mem_map.mp hr
    subst hb
    by_cases horch : strContains r0.skill.name "Orchestration" = true
    · unfold boostOrchestration
      rw [if_pos horch]
    · rw [boostOrchestration_skill] at hname
      exact absurd hname horch
  · intro hle c2 hc2
    rw [hc] at hc2
    cases hc2
    rw [if_neg (not_lt.mpr hle)]
  · split
    · rw [List.map_map]
      have hcomp : ((fun r : SkillRec => r.skill) ∘ boostOrchestration) =
          fun r : SkillRec => r.skill := by
        funext r
        exact boostOrchestration_skill r
      rw [hcomp]
      exact skill_selection_skills_sublist c
    · exact skill_selection_skills_sublist c

/-- C8 witness: in a concrete run with automate fraction 1 the
orchestration skill comes out Essential. -/
theorem orchestrationBoost_witness :
    orchRecB.priority = Priority.Essential :=
  (orchestrationBoost_spec [processTask] [autoTA] processSkillsBoosted
      (by with_unfolding_all rfl)).1 (by with_unfolding_all decide)
    orchRecB (by decide) (by decide)

instance : IsTotal AgentRec agentOrder :=
  ⟨fun a b => le_total b.relevance_score a.relevance_score⟩

instance : IsTrans AgentRec agentOrder :=
  ⟨fun _ _ _ h1 h2 => le_trans h2 h1⟩

/-- Inversion of a successful run of `recommend_agents`. -/
theorem recommend_agents_ok_iff (tasks : List InputTask)
    (skills knowledge : List InputElem) (l : List AgentRec) :
    recommend_agents tasks skills knowledge = Except.ok l ↔
      ∃ c, agent_corpus tasks skills knowledge = Except.ok c ∧
        l = ((scored_agents_of c).insertionSort agentOrder).take 8 := by
  constructor
  · intro h
    unfold recommend_agents at h
    split at h
    · cases h
    next c heq =>
      cases h
      exact ⟨c, heq, rfl⟩
  · rintro ⟨c, hc, hl⟩
    unfold recommend_agents
    simp only [hc, hl]

/-- C5 counterexample: a corpus hitting all eight triggers of the Data
Analytics Agent produces relevance 100 at the head of the output, and 100
is not a multiple of 15 (so the "always a multiple of 15" conjunct fails
at the cap). -/
theorem relevance_multiple15_cex :
    (recommend_agents [analyticsTask] [] []).map
        (fun l => l.head?.map fun a => a.relevance_score) =
      Except.ok (some 100) ∧ ¬ (15 : ℤ) ∣ 100 :=
  ⟨rfl, by decide⟩

/-- C5 amended: for every input, each returned agent carries
`relevance_score = min(100, 15 × trigger-match count)` with a positive
match count, scores are positive, at most 100, and a multiple of 15 except
exactly when capped at 100; zero-score agents are dropped, the list is
sorted by descending relevance with the original catalog order as
tie-break (every equal-score group is a subsequence of the catalog-ordered
scored list), and at most 8 entries are returned. -/
theorem agentRecommender_spec (tasks : List InputTask)
    (skills knowledge : List InputElem) (c : String) (l : List AgentRec)
    (hc : agent_corpus tasks skills knowledge = Except.ok c)
    (h : recommend_agents tasks skills knowledge = Except.ok l) :
    (∀ a ∈ l, a.agent ∈ AI_AGENT_CATALOG ∧
      a.relevance_score = min 100 ((countTriggers c a.agent.triggers : ℤ) * 15) ∧
      0 < countTriggers c a.agent.triggers ∧
      0 < a.relevance_score ∧ a.relevance_score ≤ 100 ∧
      (a.relevance_score = 100 ∨ (15 : ℤ) ∣ a.relevance_score)) ∧
    l.length ≤ 8 ∧
    l.Pairwise (fun a b => b.relevance_score ≤ a.relevance_score) ∧
    (∀ v : ℤ, ((l.filter fun a => a.relevance_score == v).Sublist
      (scored_agents_of c))) := by
  obtain ⟨c2, hc2, hl⟩ := (recommend_agents_ok_iff tasks skills knowledge l).mp h
  rw [hc] at hc2
  cases hc2
  subst hl
  refine ⟨?_, ?_, ?_, ?_⟩
  · intro a ha
    have ha2 : a ∈ (scored_agents_of c).insertionSort agentOrder :=
      (List.take_sublist 8 _).subset ha
    have ha3 : a ∈ scored_agents_of c := (List.mem_insertionSort agentOrder).mp ha2
    obtain ⟨ag, hmem, hf⟩ := List.mem_filterMap.mp ha3
    dsimp only at hf
    split_ifs at hf with hpos
    · cases hf
      have h1 : 0 < (countTriggers c ag.triggers : ℤ) := by exact_mod_cast hpos
      refine ⟨hmem, rfl, hpos, ?_, ?_, ?_⟩
      · show 0 < min 100 ((countTriggers c ag.triggers : ℤ) * 15)
        omega
      · show min 100 ((countTriggers c ag.triggers : ℤ) * 15) ≤ 100
        omega
      rcases le_or_lt ((countTriggers c ag.triggers : ℤ) * 15) 100 with hle | hgt
      · right
        show (15 : ℤ) ∣ min 100 ((countTriggers c ag.triggers : ℤ) * 15)
        rw [min_eq_right hle]
        exact ⟨(countTriggers c ag.triggers : ℤ), by ring⟩
      · left
        show min 100 ((countTriggers c ag.triggers : ℤ) * 15) = 100
        rw [min_eq_left (le_of_lt hgt)]
  · rw [List.length_take]
    omega
  · exact List.Pairwise.sublist (List.take_sublist 8 _)
      (List.sorted_insertionSort agentOrder _)
  · intro v
    have hpair : ((scored_agents_of c).filter
        fun a => a.relevance_score == v).Pairwise agentOrder := by
      refine List.pairwise_of_forall_mem_list fun x hx y hy => ?_
      have hxv : x.relevance_score = v := by
        simpa using (List.mem_filter.mp hx).2
      have hyv : y.relevance_score = v := by
        simpa using (List.mem_filter.mp hy).2
      show y.relevance_score ≤ x.relevance_score
      rw [hxv, hyv]
    have h1 : (((scored_agents_of c).filter fun a => a.relevance_score == v).Sublist
        ((scored_agents_of c).insertionSort agentOrder)) :=
      List.sublist_insertionSort hpair (List.filter_sublist _)
    have h2 : ((((scored_agents_of c).filter fun a => a.relevance_score == v).filter
        fun a => a.relevance_score == v).Sublist
        (((scored_agents_of c).insertionSort agentOrder).filter
          fun a => a.relevance_score == v)) := h1.filter _
    rw [List.filter_filter] at h2
    simp only [Bool.and_self] at h2
    have h3 : List.Perm
        (((scored_agents_of c).insertionSort agentOrder).filter
          fun a => a.relevance_score == v)
        ((scored_agents_of c).filter fun a => a.relevance_score == v) :=
      (List.perm_insertionSort agentOrder _).filter _
    have h4 : (((scored_agents_of c).insertionSort agentOrder).filter
        fun a => a.relevance_score == v) =
        ((scored_agents_of c).filter fun a => a.relevance_score == v) :=
      (h2.eq_of_length h3.length_eq.symm).symm
    have h5 : (((((scored_agents_of c).insertionSort agentOrder).take 8).filter
        fun a => a.relevance_score == v).Sublist
        (((scored_agents_of c).insertionSort agentOrder).filter
          fun a => a.relevance_score == v)) :=
      (List.take_sublist 8 _).filter _
    rw [h4] at h5
    exact h5.trans (List.filter_sublist _)

/-- C5 witness: the concrete run on `analyticsTask` satisfies the amended
properties; in particular its list is short enough. -/
theorem agentRecommender_witness : analyticsAgents.length ≤ 8 :=
  (agentRecommender_spec [analyticsTask] [] [] analyticsCorpus analyticsAgents
      rfl rfl).2.1

end OnetExplorer
